import Mathlib

/-!
Shallow embedding of `src/marketplace-contract/marketplace.js` (and the client
object shape from `src/util/client.js`) from the proj-nft-marketplace-helpers
repository, together with theorems settling the frozen claims about it.

The JavaScript wrappers are untyped functions over JS values that build plain
JSON payloads and forward them to a pre-built blockchain client via
`queryContractSmart` (queries) and `execute` (transactions), catching errors.
We model JS values with the inductive `Value`, the remote client as an oracle
structure `Client` whose methods return `Except Value Value` (a thrown JS value
or a normal result), and each wrapper as a pure Lean function returning the
list of remote contract calls it issued together with its JS-level outcome
(`Except` error = an uncaught exception propagating to the caller).
-/

/-- A JavaScript value: `undefined`, `null`, booleans, numbers (modelled as
integers; the wrappers only ever stringify them), strings, arrays and plain
objects (ordered field lists, as JS objects preserve insertion order). -/
inductive Value where
  | undef : Value
  | null : Value
  | bool : Bool → Value
  | num : Int → Value
  | str : String → Value
  | arr : List Value → Value
  | obj : List (String × Value) → Value
deriving Repr

/-- JS truthiness, as tested by `if (x)` in the wrappers. -/
def truthy : Value → Bool
  | Value.undef => false
  | .null => false
  | .bool b => b
  | .num n => n != 0
  | .str s => s != ""
  | .arr _ => true
  | .obj _ => true

mutual
/-- `String(v)` on a single array element during `Array.prototype.toString`:
`null` and `undefined` elements render as the empty string. -/
def jsStringItem : Value → String
  | Value.undef => ""
  | .null => ""
  | .bool b => cond b "true" "false"
  | .num n => toString n
  | .str s => s
  | .arr vs => jsStringElems vs
  | .obj _ => "[object Object]"
termination_by structural v => v

/-- Elements of an array joined by commas, as in JS `Array.prototype.toString`. -/
def jsStringElems : List Value → String
  | [] => ""
  | [v] => jsStringItem v
  | v :: vs => jsStringItem v ++ "," ++ jsStringElems vs
termination_by structural vs => vs
end

/-- The JS `String(v)` conversion as used by the wrappers (`String(price)`,
`String(min)`, string concatenation in memos, `String(e)` in catch blocks).
Numbers are modelled as integers, whose JS decimal rendering matches `toString`. -/
def jsString : Value → String
  | Value.undef => "undefined"
  | .null => "null"
  | v => jsStringItem v

/-- Field lookup in a JS object's ordered field list. -/
def lookupField : List (String × Value) → String → Option Value
  | [], _ => none
  | (k', v) :: rest, k => if k' = k then some v else lookupField rest k

/-- Property lookup returning `none` when the receiver is not an object or
lacks the field (used in theorem statements about built payloads). -/
def getFieldOpt : Value → String → Option Value
  | .obj fs, k => lookupField fs k
  | _, _ => none

/-- JS property read `v[k]` defaulting missing properties to `undefined`
(total version, usable when the receiver is known not to be null/undefined). -/
def getFieldD (v : Value) (k : String) : Value :=
  match v with
  | .obj fs => (lookupField fs k).getD Value.undef
  | _ => Value.undef

/-- JS property read `v[k]`: throws a TypeError on `null`/`undefined`
receivers, yields the field (or `undefined`) otherwise. -/
def getFieldE : Value → String → Except Value Value
  | Value.undef, k => .error (.str ("TypeError: Cannot read properties of undefined (reading " ++ k ++ ")"))
  | .null, k => .error (.str ("TypeError: Cannot read properties of null (reading " ++ k ++ ")"))
  | .obj fs, k => .ok ((lookupField fs k).getD Value.undef)
  | _, _ => .ok Value.undef

/-- JS property assignment `o[k] = x` on an object: overwrite in place if the
key exists, else append (JS objects preserve insertion order). On non-objects
the wrappers never assign; we leave the value unchanged. -/
def setFieldList : List (String × Value) → String → Value → List (String × Value)
  | [], k, x => [(k, x)]
  | (k', v) :: rest, k, x => if k' = k then (k, x) :: rest else (k', v) :: setFieldList rest k x

/-- See `setFieldList`. -/
def setField : Value → String → Value → Value
  | .obj fs, k, x => .obj (setFieldList fs k x)
  | v, _, _ => v

/-- JS array index `a[i]`, `undefined` when out of range. -/
def indexList (l : List Value) (i : Nat) : Value :=
  (l.get? i).getD Value.undef

/-- A Cosmos coin as returned by `@cosmjs` `coin(amount, denom)`. -/
structure Coin where
  amount : String
  denom : String
deriving Repr

/-- `^[0-9]+$` as tested by `@cosmjs` `coin` on string amounts. -/
def isDigits (s : String) : Bool :=
  !s.toList.isEmpty && s.toList.all Char.isDigit

/-- `amount.replace(/^0*, "") || "0"` from `@cosmjs` `coin`. -/
def stripLeadingZeros (s : String) : String :=
  match s.toList.dropWhile (fun c => c == '0') with
  | [] => "0"
  | cs => String.mk cs

/-- The `coin(amount, denom)` helper imported from `@cosmjs/stargate`
(re-exported from `@cosmjs/amino`): on a string amount it throws unless the
amount matches `^[0-9]+$`, and strips leading zeros otherwise. The wrappers
always call it through `String(...)`, so only the string branch is modelled. -/
def coinE (amount denom : String) : Except Value Coin :=
  if isDigits amount then .ok ⟨stripLeadingZeros amount, denom⟩
  else .error (Value.str "Invalid unsigned integer string format")

/-- Decimal digits to a natural number, `none` on empty or non-digit input. -/
def digitsToNat (cs : List Char) : Option Nat :=
  if cs.isEmpty then none
  else if cs.all Char.isDigit then some (cs.foldl (fun a c => a * 10 + (c.toNat - 48)) 0)
  else none

/-- Parse an optionally-negated decimal integer string. -/
def parseJsInt (s : String) : Option Int :=
  match s.toList with
  | '-' :: cs => (digitsToNat cs).map (fun n => -(n : Int))
  | cs => (digitsToNat cs).map (fun n => (n : Int))

/-- Modelled from the spec: `FromAtto` lives in `src/util/denom.js`, which is
not included under `src/`; per the repository docs it converts an
atto-precision (`aarch`, 18 decimals) amount to a human-readable ARCH amount
and is used only to build transaction memo strings. -/
def FromAtto (v : Value) (_fixed : Bool) : String :=
  match v with
  | .num n => toString (n / (10 : Int) ^ 18)
  | .str s =>
    match parseJsInt s with
    | some n => toString (n / (10 : Int) ^ 18)
    | none => "NaN"
  | _ => "NaN"

/-- One remote contract interaction issued through the client:
`queryContractSmart(contract, msg)` or
`execute(senderAddress, contract, msg, fee, memo, funds?)` (`funds = none`
models an omitted funds argument). -/
inductive Call where
  | query : String → Value → Call
  | exec : Value → String → Value → Value → String → Option (List Coin) → Call
deriving Repr

/-- The contract address a call is directed at. -/
def Call.toContract : Call → String
  | .query c _ => c
  | .exec _ c _ _ _ _ => c

/-- Whether a call is a `queryContractSmart` invocation. -/
def Call.isQueryB : Call → Bool
  | .query _ _ => true
  | .exec _ _ _ _ _ _ => false

/-- Whether a call is an `execute` invocation. -/
def Call.isExecB : Call → Bool
  | .query _ _ => false
  | .exec _ _ _ _ _ _ => true

/-- The message payload a call carries. -/
def Call.msgOf : Call → Value
  | .query _ m => m
  | .exec _ _ m _ _ _ => m

/-- The funds argument of an `execute` call (`none` for queries). -/
def Call.fundsOf : Call → Option (List Coin)
  | .query _ _ => none
  | .exec _ _ _ _ _ f => f

abbrev CallTrace := List Call

/-- Number of `queryContractSmart` calls in a trace. -/
def countQueries (t : CallTrace) : Nat :=
  (t.filter Call.isQueryB).length

/-- Number of `execute` calls in a trace. -/
def countExecs (t : CallTrace) : Nat :=
  (t.filter Call.isExecB).length

/-- The message payloads of the `execute` calls in a trace, in order. -/
def execMsgs (t : CallTrace) : List Value :=
  t.filterMap (fun c =>
    match c with
    | .exec _ _ m _ _ _ => some m
    | .query _ _ => none)

/-- The blockchain client object the wrappers receive (the shape used by
`marketplace.js`; `src/util/client.js` builds such a client). Remote methods
are modelled as response oracles: `.error e` means the method throws `e`.
`queryContractSmart` stands for `client.wasmClient.queryClient.wasm.queryContractSmart`,
`execute` for `client.wasmClient.execute`, `getAccounts` for
`client.offlineSigner.getAccounts()`, `chainMinDenom` for
`client.chainInfo.currencies[0].coinMinimalDenom`, and `fees` for `client.fees`. -/
structure Client where
  queryContractSmart : String → Value → Except Value Value
  execute : Value → String → Value → Value → String → Option (List Coin) → Except Value Value
  getAccounts : Except Value (List Value)
  chainMinDenom : String
  fees : Value

/-- Outcome of one wrapper invocation: the remote contract calls it issued,
and its JS-level result (`.error e` = an uncaught exception `e` propagated to
the caller; `.ok v` = the wrapper returned `v`). -/
structure RunResult where
  calls : CallTrace
  result : Except Value Value

/-- `accounts[0].address` after `client.offlineSigner.getAccounts()`:
propagates a `getAccounts` throw, throws a TypeError when there is no
account, else yields the sender address value. -/
def senderE (client : Client) : Except Value Value :=
  match client.getAccounts with
  | .error e => .error e
  | .ok accounts => getFieldE (indexList accounts 0) "address"

/-- Whether the sender lookup succeeds for this client. -/
def senderOk (client : Client) : Bool :=
  match senderE client with
  | .ok _ => true
  | .error _ => false

/-- Whether a wrapper run completed without an uncaught exception. -/
def RunResult.noThrow (r : RunResult) : Bool :=
  match r.result with
  | .ok _ => true
  | .error _ => false

/-- The common query shape: issue `queryContractSmart(contract, entrypoint)`
inside `try`, return the query result, and on a thrown `e` return `onError e`
(`{}` for `Config`/`List`, `{ error: e }` for the other query wrappers). -/
def runQuery (mc : String) (entrypoint : Value) (onError : Value → Value) (client : Client) : RunResult :=
  match client.queryContractSmart mc entrypoint with
  | .ok query => ⟨[.query mc entrypoint], .ok query⟩
  | .error e => ⟨[.query mc entrypoint], .ok (onError e)⟩

/-- The common transaction tail: given the calls already issued (`pre`) and
the computed execute arguments (or a value thrown while computing them inside
`try`), issue `execute` and catch any throw as `{ error: String(e) }`. -/
def runExec (mc : String) (pre : CallTrace) (client : Client)
    (args : Except Value (Value × Value × String × Option (List Coin))) : RunResult :=
  match args with
  | .error e => ⟨pre, .ok (.obj [("error", .str (jsString e))])⟩
  | .ok (sender, entrypoint, memo, funds) =>
    match client.execute sender mc entrypoint client.fees memo funds with
    | .ok tx => ⟨pre ++ [.exec sender mc entrypoint client.fees memo funds], .ok tx⟩
    | .error e => ⟨pre ++ [.exec sender mc entrypoint client.fees memo funds],
                   .ok (.obj [("error", .str (jsString e))])⟩

namespace Marketplace

section

variable (MARKETPLACE_CONTRACT : String)

/-- Entrypoint built by `Config`. -/
def configEntrypoint : Value := .obj [("config", .obj [])]

/-- Query marketplace config (marketplace.js line 34). -/
def Config (client : Client) : RunResult :=
  runQuery MARKETPLACE_CONTRACT configEntrypoint (fun _ => .obj []) client

/-- Entrypoint built by `List`: `{list: {}}` plus `start_after` iff `start`
is truthy and `limit` iff `limit` is truthy. -/
def listEntrypoint (start limit : Value) : Value :=
  let i := Value.obj []
  let i := if truthy start then setField i "start_after" start else i
  let i := if truthy limit then setField i "limit" limit else i
  .obj [("list", i)]

/-- List swaps, paginated (marketplace.js line 65). -/
def List (start limit : Value) (client : Client) : RunResult :=
  runQuery MARKETPLACE_CONTRACT (listEntrypoint start limit) (fun _ => .obj []) client

/-- Entrypoint built by `Details`. -/
def detailsEntrypoint (id : Value) : Value := .obj [("details", .obj [("id", id)])]

/-- Get details of a specific swap (marketplace.js line 109). -/
def Details (id : Value) (client : Client) : RunResult :=
  runQuery MARKETPLACE_CONTRACT (detailsEntrypoint id) (fun e => .obj [("error", e)]) client

/-- Entrypoint built by `SwapsOf`. -/
def swapsOfEntrypoint (address type page limit : Value) : Value :=
  .obj [("swaps_of", .obj [("address", address), ("swap_type", type), ("page", page), ("limit", limit)])]

/-- Get all swaps created by an address (marketplace.js line 171). -/
def SwapsOf (address type page limit : Value) (client : Client) : RunResult :=
  runQuery MARKETPLACE_CONTRACT (swapsOfEntrypoint address type page limit)
    (fun e => .obj [("error", e)]) client

/-- Entrypoint built by `GetTotal`. -/
def getTotalEntrypoint (swap_type : Value) : Value :=
  .obj [("get_total", .obj [("swap_type", swap_type)])]

/-- Count swaps, optionally by swap type (marketplace.js line 202). -/
def GetTotal (swap_type : Value) (client : Client) : RunResult :=
  runQuery MARKETPLACE_CONTRACT (getTotalEntrypoint swap_type)
    (fun e => .obj [("error", e)]) client

/-- Entrypoint built by `GetOffers`. -/
def getOffersEntrypoint (page limit : Value) : Value :=
  .obj [("get_offers", .obj [("page", page), ("limit", limit)])]

/-- Fetch all `Offer` swaps (marketplace.js line 269). -/
def GetOffers (page limit : Value) (client : Client) : RunResult :=
  runQuery MARKETPLACE_CONTRACT (getOffersEntrypoint page limit)
    (fun e => .obj [("error", e)]) client

/-- Entrypoint built by `GetListings`. -/
def getListingsEntrypoint (page limit : Value) : Value :=
  .obj [("get_listings", .obj [("page", page), ("limit", limit)])]

/-- Fetch all `Sale` swaps (marketplace.js line 330). -/
def GetListings (page limit : Value) (client : Client) : RunResult :=
  runQuery MARKETPLACE_CONTRACT (getListingsEntrypoint page limit)
    (fun e => .obj [("error", e)]) client

/-- Entrypoint built by `ListingsOfToken`: `swap_type` added iff `type` is
truthy (appended after `limit`). -/
def listingsOfTokenEntrypoint (token_id cw721 type page limit : Value) : Value :=
  let i := Value.obj [("token_id", token_id), ("cw721", cw721), ("page", page), ("limit", limit)]
  .obj [("listings_of_token", if truthy type then setField i "swap_type" type else i)]

/-- Fetch all swaps for a token id (marketplace.js line 395). -/
def ListingsOfToken (token_id cw721 type page limit : Value) (client : Client) : RunResult :=
  runQuery MARKETPLACE_CONTRACT (listingsOfTokenEntrypoint token_id cw721 type page limit)
    (fun e => .obj [("error", e)]) client

/-- Entrypoint built by `SwapsByPrice`: `min`/`max` added (stringified) iff
truthy. -/
def swapsByPriceEntrypoint (min max type page limit : Value) : Value :=
  let i := Value.obj [("swap_type", type), ("page", page), ("limit", limit)]
  let i := if truthy min then setField i "min" (.str (jsString min)) else i
  let i := if truthy max then setField i "max" (.str (jsString max)) else i
  .obj [("swaps_by_price", i)]

/-- Fetch all swaps within a price range (marketplace.js line 464). -/
def SwapsByPrice (min max type page limit : Value) (client : Client) : RunResult :=
  runQuery MARKETPLACE_CONTRACT (swapsByPriceEntrypoint min max type page limit)
    (fun e => .obj [("error", e)]) client

/-- Entrypoint built by `SwapsByDenom`: `payment_token` added iff truthy. -/
def swapsByDenomEntrypoint (payment_token type page limit : Value) : Value :=
  let i := Value.obj [("swap_type", type), ("page", page), ("limit", limit)]
  .obj [("swaps_by_denom", if truthy payment_token then setField i "payment_token" payment_token else i)]

/-- Fetch all swaps for a given denom (marketplace.js line 535). -/
def SwapsByDenom (payment_token type page limit : Value) (client : Client) : RunResult :=
  runQuery MARKETPLACE_CONTRACT (swapsByDenomEntrypoint payment_token type page limit)
    (fun e => .obj [("error", e)]) client

/-- Entrypoint built by `SwapsByPaymentType`. -/
def swapsByPaymentTypeEntrypoint (cw20 type page limit : Value) : Value :=
  .obj [("swaps_by_payment_type", .obj [("cw20", cw20), ("swap_type", type), ("page", page), ("limit", limit)])]

/-- Fetch all swaps by payment type (marketplace.js line 603). -/
def SwapsByPaymentType (cw20 type page limit : Value) (client : Client) : RunResult :=
  runQuery MARKETPLACE_CONTRACT (swapsByPaymentTypeEntrypoint cw20 type page limit)
    (fun e => .obj [("error", e)]) client

/-- `create` message built by `CreateNative` (marketplace.js lines 645-656):
`payment_token` is the literal `null`, `expires.at_time` is `String(expiration)`,
`price` is `cost.amount` from the `coin(...)` conversion. -/
def createNativeMsg (id token_id expiration : Value) (cost : Coin) (swap_type : Value) : Value :=
  .obj [("create", .obj [("id", id), ("payment_token", Value.null), ("token_id", token_id),
    ("expires", .obj [("at_time", .str (jsString expiration))]),
    ("price", .str cost.amount), ("swap_type", swap_type)])]

/-- Create a swap for native ARCH (marketplace.js line 638). The
`coin(String(price), client.chainInfo.currencies[0].coinMinimalDenom)` call
happens before the `try` block: its throw is NOT caught and propagates. -/
def CreateNative (id token_id expiration price swap_type : Value) (client : Client) : RunResult :=
  match coinE (jsString price) client.chainMinDenom with
  | .error e => ⟨[], .error e⟩
  | .ok cost =>
    runExec MARKETPLACE_CONTRACT [] client
      (match senderE client with
       | .error e => .error e
       | .ok sender =>
         .ok (sender, createNativeMsg id token_id expiration cost swap_type,
              "List " ++ jsString token_id ++ " for " ++ FromAtto price true ++ " ARCH", none))

/-- `create` message built by `CreateCw20` (marketplace.js lines 740-751):
`payment_token` is the caller-supplied `cw20_contract`, `expires.at_time` is
the raw `expiration`, `price` is `String(price)`. -/
def createCw20Msg (id cw20_contract token_id expiration price swap_type : Value) : Value :=
  .obj [("create", .obj [("id", id), ("payment_token", cw20_contract), ("token_id", token_id),
    ("expires", .obj [("at_time", expiration)]),
    ("price", .str (jsString price)), ("swap_type", swap_type)])]

/-- Create a swap for a cw20 token (marketplace.js line 735). Whole body is
inside `try`; no `coin(...)` call is made. -/
def CreateCw20 (id cw20_contract token_id expiration price denom swap_type : Value) (client : Client) : RunResult :=
  runExec MARKETPLACE_CONTRACT [] client
    (match senderE client with
     | .error e => .error e
     | .ok sender =>
       .ok (sender, createCw20Msg id cw20_contract token_id expiration price swap_type,
            "List " ++ jsString token_id ++ " for " ++ FromAtto price true ++ jsString denom, none))

/-- `finish` message built by `FinishNative`/`FinishCw20` (marketplace.js
lines 691-700 and 787-796): the swap fields are copied verbatim. -/
def finishMsg (id payment_token token_id expires price swap_type : Value) : Value :=
  .obj [("finish", .obj [("id", id), ("payment_token", payment_token), ("token_id", token_id),
    ("expires", expires), ("price", price), ("swap_type", swap_type)])]

/-- `swap.swap_type == SALE` (marketplace.js line 704): JS loose equality
against the string `"Sale"`. Strings compare directly; arrays coerce to a
primitive via `Array.prototype.toString` (comma join) and then compare as
strings; plain objects coerce to `"[object Object]"` which never equals
`"Sale"`; numbers and booleans compare numerically against
`ToNumber("Sale") = NaN` and `null`/`undefined` are never loosely equal to a
string, so all of those yield `false`. -/
def eqSale : Value → Bool
  | .str s => s == "Sale"
  | .arr vs => jsStringElems vs == "Sale"
  | _ => false

/-- The value returned by a wrapper run that never throws (used for the
`Details` sub-call of `FinishNative`/`FinishCw20`, whose catch makes it total). -/
def okValue : Except Value Value → Value
  | .ok v => v
  | .error _ => Value.undef

/-- Finalize a swap for native ARCH (marketplace.js line 685).
`if (!swap) swap = await Details(id, client)` runs before the `try` block but
`Details` can never throw; everything else (swap field reads, `getAccounts`,
the `coin` conversion for `Sale` funds, `execute`) is inside `try`. Funds are
`[coin(String(swap.price), minimal denom)]` when `swap.swap_type == "Sale"`,
else `[]`. -/
def FinishNative (id swap : Value) (client : Client) : RunResult :=
  let pre : CallTrace × Value :=
    if truthy swap then ([], swap)
    else ((Details MARKETPLACE_CONTRACT id client).calls,
          okValue (Details MARKETPLACE_CONTRACT id client).result)
  runExec MARKETPLACE_CONTRACT pre.1 client
    (match getFieldE pre.2 "token_id" with
     | .error e => .error e
     | .ok token_id =>
       match getFieldE pre.2 "expires" with
       | .error e => .error e
       | .ok expires =>
         match getFieldE pre.2 "price" with
         | .error e => .error e
         | .ok price =>
           match getFieldE pre.2 "swap_type" with
           | .error e => .error e
           | .ok swap_type =>
             match senderE client with
             | .error e => .error e
             | .ok sender =>
               match (if eqSale swap_type
                      then Except.map (fun c => [c]) (coinE (jsString price) client.chainMinDenom)
                      else .ok []) with
               | .error e => .error e
               | .ok funds =>
                 .ok (sender, finishMsg id Value.null token_id expires price swap_type,
                      "Swap " ++ jsString token_id ++ " for " ++ FromAtto price true ++ " ARCH",
                      some funds))

/-- Finalize a swap for cw20 tokens (marketplace.js line 781). Same shape as
`FinishNative` but `payment_token` is `swap.payment_token`, no funds argument
is passed to `execute`, and the memo uses the raw price and denom. -/
def FinishCw20 (id swap denom : Value) (client : Client) : RunResult :=
  let pre : CallTrace × Value :=
    if truthy swap then ([], swap)
    else ((Details MARKETPLACE_CONTRACT id client).calls,
          okValue (Details MARKETPLACE_CONTRACT id client).result)
  runExec MARKETPLACE_CONTRACT pre.1 client
    (match getFieldE pre.2 "payment_token" with
     | .error e => .error e
     | .ok payment_token =>
       match getFieldE pre.2 "token_id" with
       | .error e => .error e
       | .ok token_id =>
         match getFieldE pre.2 "expires" with
         | .error e => .error e
         | .ok expires =>
           match getFieldE pre.2 "price" with
           | .error e => .error e
           | .ok price =>
             match getFieldE pre.2 "swap_type" with
             | .error e => .error e
             | .ok swap_type =>
               match senderE client with
               | .error e => .error e
               | .ok sender =>
                 .ok (sender, finishMsg id payment_token token_id expires price swap_type,
                      "Swap " ++ jsString token_id ++ " for " ++ jsString price ++ jsString denom,
                      none))

/-- Cancel a swap by id (marketplace.js line 824). -/
def Cancel (id : Value) (client : Client) : RunResult :=
  runExec MARKETPLACE_CONTRACT [] client
    (match senderE client with
     | .error e => .error e
     | .ok sender => .ok (sender, .obj [("cancel", .obj [("id", id)])], "Cancel swap", none))

/-- `update` message built by `Update` (marketplace.js lines 869-877). -/
def updateMsg (id expiration : Value) (cost : Coin) : Value :=
  .obj [("update", .obj [("id", id),
    ("expires", .obj [("at_time", .str (jsString expiration))]),
    ("price", .str cost.amount)])]

/-- Update price and/or expiration of a swap (marketplace.js line 862). Like
`CreateNative`, the `coin(String(price), ...)` call happens before the `try`
block and its throw propagates. -/
def Update (id expiration price : Value) (client : Client) : RunResult :=
  match coinE (jsString price) client.chainMinDenom with
  | .error e => ⟨[], .error e⟩
  | .ok cost =>
    runExec MARKETPLACE_CONTRACT [] client
      (match senderE client with
       | .error e => .error e
       | .ok sender => .ok (sender, updateMsg id expiration cost, "Update swap", none))

end

end Marketplace

/-- A concrete well-behaved client used by witnesses and counterexamples:
queries and executions succeed with stub values, one signer account. -/
def demoClient : Client :=
  ⟨fun _ _ => .ok (Value.obj []),
   fun _ _ _ _ _ _ => .ok (Value.obj [("ok", Value.bool true)]),
   .ok [Value.obj [("address", Value.str "archway1demo")]],
   "aarch",
   Value.null⟩

/-- A client whose queries always throw (for error-shape witnesses). -/
def demoFailClient : Client :=
  ⟨fun _ _ => .error (Value.str "boom"),
   fun _ _ _ _ _ _ => .error (Value.str "boom"),
   .ok [Value.obj [("address", Value.str "archway1demo")]],
   "aarch",
   Value.null⟩

/-- A client whose signer account lookup throws (wallet locked). -/
def noAccountClient : Client :=
  ⟨fun _ _ => .ok (Value.obj []),
   fun _ _ _ _ _ _ => .ok (Value.obj [("ok", Value.bool true)]),
   .error (Value.str "wallet locked"),
   "aarch",
   Value.null⟩

/-- A client whose queries and signer account lookup both throw. -/
def allFailClient : Client :=
  ⟨fun _ _ => .error (Value.str "boom"),
   fun _ _ _ _ _ _ => .error (Value.str "boom"),
   .error (Value.str "locked"),
   "aarch",
   Value.null⟩

/-- The swap-type membership check stated by C3 (`'Sale'` or `'Offer'`). -/
def isSaleOrOffer : Value → Bool
  | .str s => s == "Sale" || s == "Offer"
  | _ => false

theorem runQuery_calls (mc : String) (ep : Value) (onError : Value → Value) (client : Client) :
    (runQuery mc ep onError client).calls = [Call.query mc ep] := by
  unfold runQuery; split <;> rfl

theorem runQuery_noThrow (mc : String) (ep : Value) (onError : Value → Value) (client : Client) :
    (runQuery mc ep onError client).noThrow = true := by
  unfold runQuery; split <;> rfl

theorem runQuery_result_err (mc : String) (ep : Value) (onError : Value → Value) (client : Client)
    (e : Value) (h : client.queryContractSmart mc ep = Except.error e) :
    (runQuery mc ep onError client).result = Except.ok (onError e) := by
  simp [runQuery, h]

theorem runExec_calls_error (mc : String) (pre : CallTrace) (client : Client) (e : Value) :
    (runExec mc pre client (.error e)).calls = pre := rfl

theorem runExec_calls_okc (mc : String) (pre : CallTrace) (client : Client)
    (s ep : Value) (memo : String) (fu : Option (List Coin)) :
    (runExec mc pre client (.ok (s, ep, memo, fu))).calls
      = pre ++ [Call.exec s mc ep client.fees memo fu] := by
  cases h : client.execute s mc ep client.fees memo fu <;> simp [runExec, h]

theorem runExec_noThrow (mc : String) (pre : CallTrace) (client : Client)
    (args : Except Value (Value × Value × String × Option (List Coin))) :
    (runExec mc pre client args).noThrow = true := by
  rcases args with e | ⟨s, ep, memo, fu⟩
  · rfl
  · cases h : client.execute s mc ep client.fees memo fu <;>
      simp [runExec, RunResult.noThrow, h]

theorem runExec_calls_all (mc : String) (pre : CallTrace) (client : Client)
    (args : Except Value (Value × Value × String × Option (List Coin))) (P : Call → Bool)
    (hpre : pre.all P = true)
    (hexec : ∀ s ep memo fu, P (Call.exec s mc ep client.fees memo fu) = true) :
    ((runExec mc pre client args).calls.all P) = true := by
  rcases args with e | ⟨s, ep, memo, fu⟩
  · rw [runExec_calls_error]; exact hpre
  · rw [runExec_calls_okc]; simp [List.all_append, hpre, hexec]

theorem runExec_countQueries (mc : String) (pre : CallTrace) (client : Client)
    (args : Except Value (Value × Value × String × Option (List Coin))) :
    countQueries (runExec mc pre client args).calls = countQueries pre := by
  rcases args with e | ⟨s, ep, memo, fu⟩
  · rw [runExec_calls_error]
  · rw [runExec_calls_okc]; simp [countQueries, List.filter_append, Call.isQueryB]

theorem runExec_countExecs_le (mc : String) (pre : CallTrace) (client : Client)
    (args : Except Value (Value × Value × String × Option (List Coin))) :
    countExecs (runExec mc pre client args).calls ≤ countExecs pre + 1 := by
  rcases args with e | ⟨s, ep, memo, fu⟩
  · rw [runExec_calls_error]; exact Nat.le_succ _
  · rw [runExec_calls_okc]; simp [countExecs, List.filter_append, Call.isExecB]

theorem runExec_countExecs_okc (mc : String) (pre : CallTrace) (client : Client)
    (s ep : Value) (memo : String) (fu : Option (List Coin)) :
    countExecs (runExec mc pre client (.ok (s, ep, memo, fu))).calls = countExecs pre + 1 := by
  rw [runExec_calls_okc]; simp [countExecs, List.filter_append, Call.isExecB]

theorem runExec_execMsgs (mc : String) (pre : CallTrace) (client : Client)
    (args : Except Value (Value × Value × String × Option (List Coin))) :
    execMsgs (runExec mc pre client args).calls
      = execMsgs pre ++ (match args with | .ok x => [x.2.1] | .error _ => []) := by
  rcases args with e | ⟨s, ep, memo, fu⟩
  · rw [runExec_calls_error]; simp [execMsgs]
  · rw [runExec_calls_okc]; simp [execMsgs, List.filterMap_append]

theorem coinE_ok_digits (a d : String) (h : isDigits a = true) :
    coinE a d = .ok ⟨stripLeadingZeros a, d⟩ := by
  simp [coinE, h]

theorem coinE_ok_inv (a d : String) (co : Coin) (h : coinE a d = .ok co) :
    co = ⟨stripLeadingZeros a, d⟩ := by
  unfold coinE at h; split at h <;> simp_all

theorem getFieldE_truthy (v : Value) (k : String) (h : truthy v = true) :
    getFieldE v k = .ok (getFieldD v k) := by
  cases v <;> simp_all [truthy, getFieldE, getFieldD]

theorem senderOk_ok (client : Client) (h : senderOk client = true) :
    ∃ s, senderE client = Except.ok s := by
  rcases hs : senderE client with e | s
  · unfold senderOk at h; rw [hs] at h; simp at h
  · exact ⟨s, rfl⟩

theorem senderE_error (client : Client) (e : Value) (h : client.getAccounts = Except.error e) :
    senderE client = Except.error e := by
  simp [senderE, h]

theorem runExec_result_error (mc : String) (pre : CallTrace) (client : Client) (e : Value) :
    (runExec mc pre client (.error e)).result
      = Except.ok (Value.obj [("error", Value.str (jsString e))]) := rfl

/-- C10: `SwapsByPrice` treats a minimum (or maximum) of 0 identically to an
omitted bound: a `min` of 0 yields exactly the same invocation (hence the
same query payload) as a `min` of `null`, and likewise for `max`, because the
`min`/`max` fields are only added when the value is truthy. -/
theorem c10_zero_bound_like_null (mc : String) (client : Client) (minv maxv type page limit : Value) :
    Marketplace.SwapsByPrice mc (Value.num 0) maxv type page limit client
      = Marketplace.SwapsByPrice mc Value.null maxv type page limit client
  ∧ Marketplace.SwapsByPrice mc minv (Value.num 0) type page limit client
      = Marketplace.SwapsByPrice mc minv Value.null type page limit client := by
  constructor <;>
    simp [Marketplace.SwapsByPrice, Marketplace.swapsByPriceEntrypoint, truthy]

/-- C6: the paginated query wrappers perform request shaping only and no input
validation: for arbitrary `address`, `swap_type`, `page`, `limit` and `cw20`
values (including out-of-range ones), `SwapsOf`, `GetOffers`, `GetListings`,
`SwapsByPaymentType` and `GetTotal` issue exactly the query whose payload
carries the argument values verbatim, never rejecting them client-side. -/
theorem c6_no_client_side_validation (mc : String) (client : Client)
    (address type page limit cw20 : Value) :
    (Marketplace.SwapsOf mc address type page limit client).calls
      = [Call.query mc (Value.obj [("swaps_of", Value.obj [("address", address),
          ("swap_type", type), ("page", page), ("limit", limit)])])]
  ∧ (Marketplace.GetOffers mc page limit client).calls
      = [Call.query mc (Value.obj [("get_offers", Value.obj [("page", page), ("limit", limit)])])]
  ∧ (Marketplace.GetListings mc page limit client).calls
      = [Call.query mc (Value.obj [("get_listings", Value.obj [("page", page), ("limit", limit)])])]
  ∧ (Marketplace.SwapsByPaymentType mc cw20 type page limit client).calls
      = [Call.query mc (Value.obj [("swaps_by_payment_type", Value.obj [("cw20", cw20),
          ("swap_type", type), ("page", page), ("limit", limit)])])]
  ∧ (Marketplace.GetTotal mc type client).calls
      = [Call.query mc (Value.obj [("get_total", Value.obj [("swap_type", type)])])] := by
  exact ⟨runQuery_calls mc _ _ client, runQuery_calls mc _ _ client, runQuery_calls mc _ _ client,
    runQuery_calls mc _ _ client, runQuery_calls mc _ _ client⟩

/-- C4: the wrappers with optional parameters marshal them into the forwarded
payload exactly when they are truthy: `List` includes `start_after` iff
`start` is given and `limit` iff `limit` is given; `ListingsOfToken` includes
`swap_type` iff `type` is given; `SwapsByPrice` includes `min`/`max`
(stringified) iff they are given; `SwapsByDenom` includes `payment_token` iff
it is given — and each wrapper forwards exactly that entrypoint. -/
theorem c4_optional_params_marshalling (mc : String) (client : Client)
    (start limit token_id cw721 type minv maxv payment_token page lim : Value) :
    (Marketplace.List mc start limit client).calls
      = [Call.query mc (Marketplace.listEntrypoint start limit)]
  ∧ getFieldOpt (getFieldD (Marketplace.listEntrypoint start limit) "list") "start_after"
      = (if truthy start then some start else none)
  ∧ getFieldOpt (getFieldD (Marketplace.listEntrypoint start limit) "list") "limit"
      = (if truthy limit then some limit else none)
  ∧ (Marketplace.ListingsOfToken mc token_id cw721 type page lim client).calls
      = [Call.query mc (Marketplace.listingsOfTokenEntrypoint token_id cw721 type page lim)]
  ∧ getFieldOpt (getFieldD (Marketplace.listingsOfTokenEntrypoint token_id cw721 type page lim)
        "listings_of_token") "swap_type"
      = (if truthy type then some type else none)
  ∧ (Marketplace.SwapsByPrice mc minv maxv type page lim client).calls
      = [Call.query mc (Marketplace.swapsByPriceEntrypoint minv maxv type page lim)]
  ∧ getFieldOpt (getFieldD (Marketplace.swapsByPriceEntrypoint minv maxv type page lim)
        "swaps_by_price") "min"
      = (if truthy minv then some (Value.str (jsString minv)) else none)
  ∧ getFieldOpt (getFieldD (Marketplace.swapsByPriceEntrypoint minv maxv type page lim)
        "swaps_by_price") "max"
      = (if truthy maxv then some (Value.str (jsString maxv)) else none)
  ∧ (Marketplace.SwapsByDenom mc payment_token type page lim client).calls
      = [Call.query mc (Marketplace.swapsByDenomEntrypoint payment_token type page lim)]
  ∧ getFieldOpt (getFieldD (Marketplace.swapsByDenomEntrypoint payment_token type page lim)
        "swaps_by_denom") "payment_token"
      = (if truthy payment_token then some payment_token else none) := by
  refine ⟨runQuery_calls mc _ _ client, ?_, ?_, runQuery_calls mc _ _ client, ?_,
    runQuery_calls mc _ _ client, ?_, ?_, runQuery_calls mc _ _ client, ?_⟩
  · cases hs : truthy start <;> cases hl : truthy limit <;>
      simp [Marketplace.listEntrypoint, hs, hl, setField, setFieldList, getFieldOpt, getFieldD, lookupField]
  · cases hs : truthy start <;> cases hl : truthy limit <;>
      simp [Marketplace.listEntrypoint, hs, hl, setField, setFieldList, getFieldOpt, getFieldD, lookupField]
  · cases ht : truthy type <;>
      simp [Marketplace.listingsOfTokenEntrypoint, ht, setField, setFieldList, getFieldOpt, getFieldD, lookupField]
  · cases hs : truthy minv <;> cases hl : truthy maxv <;>
      simp [Marketplace.swapsByPriceEntrypoint, hs, hl, setField, setFieldList, getFieldOpt, getFieldD, lookupField]
  · cases hs : truthy minv <;> cases hl : truthy maxv <;>
      simp [Marketplace.swapsByPriceEntrypoint, hs, hl, setField, setFieldList, getFieldOpt, getFieldD, lookupField]
  · cases hp : truthy payment_token <;>
      simp [Marketplace.swapsByDenomEntrypoint, hp, setField, setFieldList, getFieldOpt, getFieldD, lookupField]

theorem runQuery_calls_all (mc : String) (ep : Value) (onError : Value → Value) (client : Client) :
    ((runQuery mc ep onError client).calls.all fun c => c.toContract == mc && c.isQueryB) = true := by
  rw [runQuery_calls]; simp [Call.toContract, Call.isQueryB]

/-- C8: on a thrown remote query error, `Config` and `List` return the empty
object `{}`, while all other query wrappers return `{ error: e }` carrying the
thrown error. -/
theorem c8_error_result_shapes (mc : String) (client : Client) (e : Value) (v1 v2 v3 v4 v5 : Value)
    (h : ∀ a m, client.queryContractSmart a m = Except.error e) :
    (Marketplace.Config mc client).result = Except.ok (Value.obj [])
  ∧ (Marketplace.List mc v1 v2 client).result = Except.ok (Value.obj [])
  ∧ (Marketplace.Details mc v1 client).result = Except.ok (Value.obj [("error", e)])
  ∧ (Marketplace.SwapsOf mc v1 v2 v3 v4 client).result = Except.ok (Value.obj [("error", e)])
  ∧ (Marketplace.GetTotal mc v1 client).result = Except.ok (Value.obj [("error", e)])
  ∧ (Marketplace.GetOffers mc v1 v2 client).result = Except.ok (Value.obj [("error", e)])
  ∧ (Marketplace.GetListings mc v1 v2 client).result = Except.ok (Value.obj [("error", e)])
  ∧ (Marketplace.ListingsOfToken mc v1 v2 v3 v4 v5 client).result = Except.ok (Value.obj [("error", e)])
  ∧ (Marketplace.SwapsByPrice mc v1 v2 v3 v4 v5 client).result = Except.ok (Value.obj [("error", e)])
  ∧ (Marketplace.SwapsByDenom mc v1 v2 v3 v4 client).result = Except.ok (Value.obj [("error", e)])
  ∧ (Marketplace.SwapsByPaymentType mc v1 v2 v3 v4 client).result = Except.ok (Value.obj [("error", e)]) :=
  ⟨runQuery_result_err mc _ _ client e (h mc _),
   runQuery_result_err mc _ _ client e (h mc _),
   runQuery_result_err mc _ _ client e (h mc _),
   runQuery_result_err mc _ _ client e (h mc _),
   runQuery_result_err mc _ _ client e (h mc _),
   runQuery_result_err mc _ _ client e (h mc _),
   runQuery_result_err mc _ _ client e (h mc _),
   runQuery_result_err mc _ _ client e (h mc _),
   runQuery_result_err mc _ _ client e (h mc _),
   runQuery_result_err mc _ _ client e (h mc _),
   runQuery_result_err mc _ _ client e (h mc _)⟩

/-- Witness for C8, at a concrete always-throwing client. -/
theorem c8_witness :
    (Marketplace.Config "m" demoFailClient).result = Except.ok (Value.obj [])
  ∧ (Marketplace.Details "m" (Value.str "1") demoFailClient).result
      = Except.ok (Value.obj [("error", Value.str "boom")]) :=
  ⟨(c8_error_result_shapes "m" demoFailClient (Value.str "boom") (Value.str "1") (Value.str "1")
      (Value.str "1") (Value.str "1") (Value.str "1") (fun _ _ => rfl)).1,
   (c8_error_result_shapes "m" demoFailClient (Value.str "boom") (Value.str "1") (Value.str "1")
      (Value.str "1") (Value.str "1") (Value.str "1") (fun _ _ => rfl)).2.2.1⟩

/-- C2: every wrapper communicates with the marketplace contract only through
`queryContractSmart` and `execute`, always addressed to the
`MARKETPLACE_CONTRACT` address `mc`: query wrappers issue only
`queryContractSmart` calls, `CreateNative`, `CreateCw20`, `Cancel` and
`Update` issue only `execute` calls, and `FinishNative`/`FinishCw20` issue
only `queryContractSmart`/`execute` calls with at most one query (via
`Details`); no other remote method is ever invoked. -/
theorem c2_only_two_remote_methods (mc : String) (client : Client) (v1 v2 v3 v4 v5 v6 v7 : Value) :
    ((Marketplace.Config mc client).calls.all fun c => c.toContract == mc && c.isQueryB) = true
  ∧ ((Marketplace.List mc v1 v2 client).calls.all fun c => c.toContract == mc && c.isQueryB) = true
  ∧ ((Marketplace.Details mc v1 client).calls.all fun c => c.toContract == mc && c.isQueryB) = true
  ∧ ((Marketplace.SwapsOf mc v1 v2 v3 v4 client).calls.all fun c => c.toContract == mc && c.isQueryB) = true
  ∧ ((Marketplace.GetTotal mc v1 client).calls.all fun c => c.toContract == mc && c.isQueryB) = true
  ∧ ((Marketplace.GetOffers mc v1 v2 client).calls.all fun c => c.toContract == mc && c.isQueryB) = true
  ∧ ((Marketplace.GetListings mc v1 v2 client).calls.all fun c => c.toContract == mc && c.isQueryB) = true
  ∧ ((Marketplace.ListingsOfToken mc v1 v2 v3 v4 v5 client).calls.all fun c => c.toContract == mc && c.isQueryB) = true
  ∧ ((Marketplace.SwapsByPrice mc v1 v2 v3 v4 v5 client).calls.all fun c => c.toContract == mc && c.isQueryB) = true
  ∧ ((Marketplace.SwapsByDenom mc v1 v2 v3 v4 client).calls.all fun c => c.toContract == mc && c.isQueryB) = true
  ∧ ((Marketplace.SwapsByPaymentType mc v1 v2 v3 v4 client).calls.all fun c => c.toContract == mc && c.isQueryB) = true
  ∧ ((Marketplace.CreateNative mc v1 v2 v3 v4 v5 client).calls.all fun c => c.toContract == mc && c.isExecB) = true
  ∧ ((Marketplace.CreateCw20 mc v1 v2 v3 v4 v5 v6 v7 client).calls.all fun c => c.toContract == mc && c.isExecB) = true
  ∧ ((Marketplace.Cancel mc v1 client).calls.all fun c => c.toContract == mc && c.isExecB) = true
  ∧ ((Marketplace.Update mc v1 v2 v3 client).calls.all fun c => c.toContract == mc && c.isExecB) = true
  ∧ ((Marketplace.FinishNative mc v1 v2 client).calls.all fun c => c.toContract == mc && (c.isQueryB || c.isExecB)) = true
  ∧ countQueries (Marketplace.FinishNative mc v1 v2 client).calls ≤ 1
  ∧ ((Marketplace.FinishCw20 mc v1 v2 v3 client).calls.all fun c => c.toContract == mc && (c.isQueryB || c.isExecB)) = true
  ∧ countQueries (Marketplace.FinishCw20 mc v1 v2 v3 client).calls ≤ 1 := by
  refine ⟨runQuery_calls_all mc _ _ client, runQuery_calls_all mc _ _ client,
    runQuery_calls_all mc _ _ client, runQuery_calls_all mc _ _ client,
    runQuery_calls_all mc _ _ client, runQuery_calls_all mc _ _ client,
    runQuery_calls_all mc _ _ client, runQuery_calls_all mc _ _ client,
    runQuery_calls_all mc _ _ client, runQuery_calls_all mc _ _ client,
    runQuery_calls_all mc _ _ client, ?_, ?_, ?_, ?_, ?_, ?_, ?_, ?_⟩
  · cases hc : coinE (jsString v4) client.chainMinDenom with
    | error e => simp [Marketplace.CreateNative, hc]
    | ok cost =>
      simp only [Marketplace.CreateNative, hc]
      exact runExec_calls_all mc [] client _ _ rfl
        (fun s ep memo fu => by simp [Call.toContract, Call.isExecB])
  · exact runExec_calls_all mc [] client _ _ rfl
      (fun s ep memo fu => by simp [Call.toContract, Call.isExecB])
  · exact runExec_calls_all mc [] client _ _ rfl
      (fun s ep memo fu => by simp [Call.toContract, Call.isExecB])
  · cases hc : coinE (jsString v3) client.chainMinDenom with
    | error e => simp [Marketplace.Update, hc]
    | ok cost =>
      simp only [Marketplace.Update, hc]
      exact runExec_calls_all mc [] client _ _ rfl
        (fun s ep memo fu => by simp [Call.toContract, Call.isExecB])
  · simp only [Marketplace.FinishNative]
    apply runExec_calls_all
    · cases ht : truthy v2 <;>
        simp [ht, Marketplace.Details, runQuery_calls, Call.toContract, Call.isQueryB]
    · intro s ep memo fu; simp [Call.toContract, Call.isExecB]
  · simp only [Marketplace.FinishNative]
    rw [runExec_countQueries]
    cases ht : truthy v2 <;>
      simp [ht, Marketplace.Details, runQuery_calls, countQueries, Call.isQueryB]
  · simp only [Marketplace.FinishCw20]
    apply runExec_calls_all
    · cases ht : truthy v2 <;>
        simp [ht, Marketplace.Details, runQuery_calls, Call.toContract, Call.isQueryB]
    · intro s ep memo fu; simp [Call.toContract, Call.isExecB]
  · simp only [Marketplace.FinishCw20]
    rw [runExec_countQueries]
    cases ht : truthy v2 <;>
      simp [ht, Marketplace.Details, runQuery_calls, countQueries, Call.isQueryB]

/-- C1 is false as stated: `CreateNative` calls `coin(String(price), ...)`
before its `try` block, so with `price = -5` (whose `String()` form is not an
unsigned-integer string) the `coin` exception propagates to the caller even
though the remote client never threw. -/
theorem c1_counterexample :
    (Marketplace.CreateNative "m" (Value.str "1") (Value.str "tok") (Value.num 0)
      (Value.num (-5)) (Value.str "Sale") demoClient).result
      = Except.error (Value.str "Invalid unsigned integer string format") := rfl

/-- C1 (amended): every error thrown by the remote client during a wrapper
call is caught, and the wrapper returns a value instead of throwing: no query
wrapper ever throws, and on a thrown remote query `Config` and `List` return
`{}` (discarding the error) while the other query wrappers return
`{error: e}`; `CreateCw20`, `FinishNative`, `FinishCw20` and `Cancel` never
throw, and when the signer account lookup throws `ea` they return
`{error: String(ea)}` (for the Finish wrappers, given a truthy swap
argument); `CreateNative` and `Update` behave the same once their local
`coin()` conversion (performed before the `try` block) succeeds, i.e. when
`String(price)` matches the unsigned-integer format — when it does not, that
local, non-remote exception propagates. -/
theorem c1_errors_passed_through_amended (mc : String) (client cErr : Client)
    (v1 v2 v3 v4 v5 v6 v7 price swp eqv ea : Value)
    (hp : isDigits (jsString price) = true)
    (hts : truthy swp = true)
    (herr : ∀ a m, cErr.queryContractSmart a m = Except.error eqv)
    (hacc : cErr.getAccounts = Except.error ea) :
    (Marketplace.CreateNative mc v1 v2 v3 price v4 client).noThrow = true
  ∧ (Marketplace.Update mc v1 v2 price client).noThrow = true
  ∧ (Marketplace.Config mc client).noThrow = true
  ∧ (Marketplace.List mc v1 v2 client).noThrow = true
  ∧ (Marketplace.Details mc v1 client).noThrow = true
  ∧ (Marketplace.SwapsOf mc v1 v2 v3 v4 client).noThrow = true
  ∧ (Marketplace.GetTotal mc v1 client).noThrow = true
  ∧ (Marketplace.GetOffers mc v1 v2 client).noThrow = true
  ∧ (Marketplace.GetListings mc v1 v2 client).noThrow = true
  ∧ (Marketplace.ListingsOfToken mc v1 v2 v3 v4 v5 client).noThrow = true
  ∧ (Marketplace.SwapsByPrice mc v1 v2 v3 v4 v5 client).noThrow = true
  ∧ (Marketplace.SwapsByDenom mc v1 v2 v3 v4 client).noThrow = true
  ∧ (Marketplace.SwapsByPaymentType mc v1 v2 v3 v4 client).noThrow = true
  ∧ (Marketplace.CreateCw20 mc v1 v2 v3 v4 v5 v6 v7 client).noThrow = true
  ∧ (Marketplace.FinishNative mc v1 v2 client).noThrow = true
  ∧ (Marketplace.FinishCw20 mc v1 v2 v3 client).noThrow = true
  ∧ (Marketplace.Cancel mc v1 client).noThrow = true
  ∧ (Marketplace.Config mc cErr).result = Except.ok (Value.obj [])
  ∧ (Marketplace.List mc v1 v2 cErr).result = Except.ok (Value.obj [])
  ∧ (Marketplace.Details mc v1 cErr).result = Except.ok (Value.obj [("error", eqv)])
  ∧ (Marketplace.SwapsOf mc v1 v2 v3 v4 cErr).result = Except.ok (Value.obj [("error", eqv)])
  ∧ (Marketplace.GetTotal mc v1 cErr).result = Except.ok (Value.obj [("error", eqv)])
  ∧ (Marketplace.GetOffers mc v1 v2 cErr).result = Except.ok (Value.obj [("error", eqv)])
  ∧ (Marketplace.GetListings mc v1 v2 cErr).result = Except.ok (Value.obj [("error", eqv)])
  ∧ (Marketplace.ListingsOfToken mc v1 v2 v3 v4 v5 cErr).result = Except.ok (Value.obj [("error", eqv)])
  ∧ (Marketplace.SwapsByPrice mc v1 v2 v3 v4 v5 cErr).result = Except.ok (Value.obj [("error", eqv)])
  ∧ (Marketplace.SwapsByDenom mc v1 v2 v3 v4 cErr).result = Except.ok (Value.obj [("error", eqv)])
  ∧ (Marketplace.SwapsByPaymentType mc v1 v2 v3 v4 cErr).result = Except.ok (Value.obj [("error", eqv)])
  ∧ (Marketplace.Cancel mc v1 cErr).result
      = Except.ok (Value.obj [("error", Value.str (jsString ea))])
  ∧ (Marketplace.CreateCw20 mc v1 v2 v3 v4 v5 v6 v7 cErr).result
      = Except.ok (Value.obj [("error", Value.str (jsString ea))])
  ∧ (Marketplace.FinishNative mc v1 swp cErr).result
      = Except.ok (Value.obj [("error", Value.str (jsString ea))])
  ∧ (Marketplace.FinishCw20 mc v1 swp v2 cErr).result
      = Except.ok (Value.obj [("error", Value.str (jsString ea))])
  ∧ (Marketplace.CreateNative mc v1 v2 v3 price v4 cErr).result
      = Except.ok (Value.obj [("error", Value.str (jsString ea))])
  ∧ (Marketplace.Update mc v1 v2 price cErr).result
      = Except.ok (Value.obj [("error", Value.str (jsString ea))]) := by
  refine ⟨?_, ?_, runQuery_noThrow mc _ _ client, runQuery_noThrow mc _ _ client,
    runQuery_noThrow mc _ _ client, runQuery_noThrow mc _ _ client,
    runQuery_noThrow mc _ _ client, runQuery_noThrow mc _ _ client,
    runQuery_noThrow mc _ _ client, runQuery_noThrow mc _ _ client,
    runQuery_noThrow mc _ _ client, runQuery_noThrow mc _ _ client,
    runQuery_noThrow mc _ _ client, runExec_noThrow mc _ client _,
    runExec_noThrow mc _ client _, runExec_noThrow mc _ client _,
    runExec_noThrow mc _ client _,
    runQuery_result_err mc _ _ cErr eqv (herr mc _),
    runQuery_result_err mc _ _ cErr eqv (herr mc _),
    runQuery_result_err mc _ _ cErr eqv (herr mc _),
    runQuery_result_err mc _ _ cErr eqv (herr mc _),
    runQuery_result_err mc _ _ cErr eqv (herr mc _),
    runQuery_result_err mc _ _ cErr eqv (herr mc _),
    runQuery_result_err mc _ _ cErr eqv (herr mc _),
    runQuery_result_err mc _ _ cErr eqv (herr mc _),
    runQuery_result_err mc _ _ cErr eqv (herr mc _),
    runQuery_result_err mc _ _ cErr eqv (herr mc _),
    runQuery_result_err mc _ _ cErr eqv (herr mc _),
    ?_, ?_, ?_, ?_, ?_, ?_⟩
  · simp only [Marketplace.CreateNative, coinE_ok_digits _ _ hp]
    exact runExec_noThrow mc _ client _
  · simp only [Marketplace.Update, coinE_ok_digits _ _ hp]
    exact runExec_noThrow mc _ client _
  · simp only [Marketplace.Cancel, senderE_error cErr ea hacc]
    exact runExec_result_error mc _ cErr ea
  · simp only [Marketplace.CreateCw20, senderE_error cErr ea hacc]
    exact runExec_result_error mc _ cErr ea
  · simp only [Marketplace.FinishNative, hts, if_true, getFieldE_truthy _ _ hts,
      senderE_error cErr ea hacc]
    exact runExec_result_error mc _ cErr ea
  · simp only [Marketplace.FinishCw20, hts, if_true, getFieldE_truthy _ _ hts,
      senderE_error cErr ea hacc]
    exact runExec_result_error mc _ cErr ea
  · simp only [Marketplace.CreateNative, coinE_ok_digits _ _ hp,
      senderE_error cErr ea hacc]
    exact runExec_result_error mc _ cErr ea
  · simp only [Marketplace.Update, coinE_ok_digits _ _ hp,
      senderE_error cErr ea hacc]
    exact runExec_result_error mc _ cErr ea

/-- Witness for C1 (amended), at concrete clients and arguments. -/
theorem c1_witness :
    isDigits (jsString (Value.str "5")) = true
  ∧ truthy (Value.str "s") = true
  ∧ (Marketplace.CreateNative "m" (Value.str "1") (Value.str "1") (Value.str "1")
      (Value.str "5") (Value.str "1") demoClient).noThrow = true :=
  ⟨rfl, rfl, (c1_errors_passed_through_amended "m" demoClient allFailClient (Value.str "1")
      (Value.str "1") (Value.str "1") (Value.str "1") (Value.str "1") (Value.str "1")
      (Value.str "1") (Value.str "5") (Value.str "s") (Value.str "boom") (Value.str "locked")
      rfl rfl (fun _ _ => rfl) rfl).1⟩

/-- C5 is false as stated: with a client whose signer account lookup throws
(e.g. a locked wallet), a single invocation of the transaction wrapper
`Cancel` issues zero `execute` calls (not exactly one) and returns the caught
error normally. -/
theorem c5_counterexample :
    countExecs (Marketplace.Cancel "m" (Value.str "s1") noAccountClient).calls = 0
  ∧ (Marketplace.Cancel "m" (Value.str "s1") noAccountClient).result
      = Except.ok (Value.obj [("error", Value.str "wallet locked")]) :=
  ⟨rfl, rfl⟩

/-- C5 (amended): a single invocation of any query wrapper issues exactly one
`queryContractSmart` call. A single invocation of any transaction wrapper
issues at most one `execute` call; exactly one is issued by `Cancel` and
`CreateCw20` when the signer account lookup succeeds, by `CreateNative` and
`Update` when additionally the `coin()` price conversion succeeds, by
`FinishCw20` when the `swap` argument is truthy and the account lookup
succeeds, and by `FinishNative` when, further, either the swap's `swap_type`
is not loosely equal to `"Sale"` or `String(swap.price)` is an
unsigned-integer string (otherwise the in-`try` funds `coin()` throw prevents
the `execute`). `FinishNative` and `FinishCw20` additionally issue exactly one
`Details` query when and only when the `swap` argument is falsy (e.g.
omitted). -/
theorem c5_one_shot_amended (mc : String) (client : Client)
    (v1 v2 v3 v4 v5 v6 v7 price swp : Value) :
    (senderOk client = true → isDigits (jsString price) = true →
      countExecs (Marketplace.CreateNative mc v1 v2 v3 price v4 client).calls = 1)
  ∧ (senderOk client = true → isDigits (jsString price) = true →
      countExecs (Marketplace.Update mc v1 v2 price client).calls = 1)
  ∧ (senderOk client = true →
      countExecs (Marketplace.CreateCw20 mc v1 v2 v3 v4 v5 v6 v7 client).calls = 1)
  ∧ (senderOk client = true → countExecs (Marketplace.Cancel mc v1 client).calls = 1)
  ∧ (truthy swp = true → senderOk client = true →
      countExecs (Marketplace.FinishCw20 mc v1 swp v2 client).calls = 1)
  ∧ (truthy swp = true → senderOk client = true →
      Marketplace.eqSale (getFieldD swp "swap_type") = false →
      countExecs (Marketplace.FinishNative mc v1 swp client).calls = 1)
  ∧ (truthy swp = true → senderOk client = true →
      isDigits (jsString (getFieldD swp "price")) = true →
      countExecs (Marketplace.FinishNative mc v1 swp client).calls = 1)
  ∧ countExecs (Marketplace.CreateNative mc v1 v2 v3 price v4 client).calls ≤ 1
  ∧ countExecs (Marketplace.Update mc v1 v2 price client).calls ≤ 1
  ∧ countExecs (Marketplace.CreateCw20 mc v1 v2 v3 v4 v5 v6 v7 client).calls ≤ 1
  ∧ countExecs (Marketplace.Cancel mc v1 client).calls ≤ 1
  ∧ countExecs (Marketplace.FinishNative mc v1 swp client).calls ≤ 1
  ∧ countExecs (Marketplace.FinishCw20 mc v1 swp v2 client).calls ≤ 1
  ∧ countQueries (Marketplace.FinishNative mc v1 swp client).calls = (if truthy swp then 0 else 1)
  ∧ countQueries (Marketplace.FinishCw20 mc v1 swp v2 client).calls = (if truthy swp then 0 else 1)
  ∧ countQueries (Marketplace.CreateNative mc v1 v2 v3 price v4 client).calls = 0
  ∧ countQueries (Marketplace.CreateCw20 mc v1 v2 v3 v4 v5 v6 v7 client).calls = 0
  ∧ countQueries (Marketplace.Cancel mc v1 client).calls = 0
  ∧ countQueries (Marketplace.Update mc v1 v2 price client).calls = 0
  ∧ (Marketplace.Config mc client).calls = [Call.query mc Marketplace.configEntrypoint]
  ∧ (Marketplace.List mc v1 v2 client).calls = [Call.query mc (Marketplace.listEntrypoint v1 v2)]
  ∧ (Marketplace.Details mc v1 client).calls = [Call.query mc (Marketplace.detailsEntrypoint v1)]
  ∧ (Marketplace.SwapsOf mc v1 v2 v3 v4 client).calls
      = [Call.query mc (Marketplace.swapsOfEntrypoint v1 v2 v3 v4)]
  ∧ (Marketplace.GetTotal mc v1 client).calls = [Call.query mc (Marketplace.getTotalEntrypoint v1)]
  ∧ (Marketplace.GetOffers mc v1 v2 client).calls
      = [Call.query mc (Marketplace.getOffersEntrypoint v1 v2)]
  ∧ (Marketplace.GetListings mc v1 v2 client).calls
      = [Call.query mc (Marketplace.getListingsEntrypoint v1 v2)]
  ∧ (Marketplace.ListingsOfToken mc v1 v2 v3 v4 v5 client).calls
      = [Call.query mc (Marketplace.listingsOfTokenEntrypoint v1 v2 v3 v4 v5)]
  ∧ (Marketplace.SwapsByPrice mc v1 v2 v3 v4 v5 client).calls
      = [Call.query mc (Marketplace.swapsByPriceEntrypoint v1 v2 v3 v4 v5)]
  ∧ (Marketplace.SwapsByDenom mc v1 v2 v3 v4 client).calls
      = [Call.query mc (Marketplace.swapsByDenomEntrypoint v1 v2 v3 v4)]
  ∧ (Marketplace.SwapsByPaymentType mc v1 v2 v3 v4 client).calls
      = [Call.query mc (Marketplace.swapsByPaymentTypeEntrypoint v1 v2 v3 v4)] := by
  refine ⟨?_, ?_, ?_, ?_, ?_, ?_, ?_, ?_, ?_, ?_, ?_, ?_, ?_, ?_, ?_, ?_, ?_, ?_, ?_,
    runQuery_calls mc _ _ client, runQuery_calls mc _ _ client, runQuery_calls mc _ _ client,
    runQuery_calls mc _ _ client, runQuery_calls mc _ _ client, runQuery_calls mc _ _ client,
    runQuery_calls mc _ _ client, runQuery_calls mc _ _ client, runQuery_calls mc _ _ client,
    runQuery_calls mc _ _ client, runQuery_calls mc _ _ client⟩
  · intro hs hp
    obtain ⟨s, hse⟩ := senderOk_ok client hs
    simp only [Marketplace.CreateNative, coinE_ok_digits _ _ hp, hse]
    rw [runExec_countExecs_okc]; rfl
  · intro hs hp
    obtain ⟨s, hse⟩ := senderOk_ok client hs
    simp only [Marketplace.Update, coinE_ok_digits _ _ hp, hse]
    rw [runExec_countExecs_okc]; rfl
  · intro hs
    obtain ⟨s, hse⟩ := senderOk_ok client hs
    simp only [Marketplace.CreateCw20, hse]
    rw [runExec_countExecs_okc]; rfl
  · intro hs
    obtain ⟨s, hse⟩ := senderOk_ok client hs
    simp only [Marketplace.Cancel, hse]
    rw [runExec_countExecs_okc]; rfl
  · intro hts hs
    obtain ⟨s, hse⟩ := senderOk_ok client hs
    simp only [Marketplace.FinishCw20, hts, if_true, getFieldE_truthy _ _ hts, hse]
    rw [runExec_countExecs_okc]; rfl
  · intro hts hs heq
    obtain ⟨s, hse⟩ := senderOk_ok client hs
    simp only [Marketplace.FinishNative, hts, if_true, getFieldE_truthy _ _ hts, hse]
    simp only [heq, Bool.false_eq_true, if_false]
    rw [runExec_countExecs_okc]; rfl
  · intro hts hs hpr
    obtain ⟨s, hse⟩ := senderOk_ok client hs
    simp only [Marketplace.FinishNative, hts, if_true, getFieldE_truthy _ _ hts, hse,
      coinE_ok_digits _ _ hpr, Except.map]
    cases heq : Marketplace.eqSale (getFieldD swp "swap_type")
    · simp only [heq, Bool.false_eq_true, if_false]
      rw [runExec_countExecs_okc]; rfl
    · simp only [heq, eq_self_iff_true, if_true]
      rw [runExec_countExecs_okc]; rfl
  · cases hc : coinE (jsString price) client.chainMinDenom with
    | error e => simp [Marketplace.CreateNative, hc, countExecs]
    | ok cost =>
      simp only [Marketplace.CreateNative, hc]
      exact le_trans (runExec_countExecs_le mc [] client _) (by simp [countExecs])
  · cases hc : coinE (jsString price) client.chainMinDenom with
    | error e => simp [Marketplace.Update, hc, countExecs]
    | ok cost =>
      simp only [Marketplace.Update, hc]
      exact le_trans (runExec_countExecs_le mc [] client _) (by simp [countExecs])
  · simp only [Marketplace.CreateCw20]
    exact le_trans (runExec_countExecs_le mc [] client _) (by simp [countExecs])
  · simp only [Marketplace.Cancel]
    exact le_trans (runExec_countExecs_le mc [] client _) (by simp [countExecs])
  · simp only [Marketplace.FinishNative]
    refine le_trans (runExec_countExecs_le mc _ client _) ?_
    cases ht : truthy swp <;>
      simp [ht, Marketplace.Details, runQuery_calls, countExecs, Call.isExecB]
  · simp only [Marketplace.FinishCw20]
    refine le_trans (runExec_countExecs_le mc _ client _) ?_
    cases ht : truthy swp <;>
      simp [ht, Marketplace.Details, runQuery_calls, countExecs, Call.isExecB]
  · simp only [Marketplace.FinishNative]
    rw [runExec_countQueries]
    cases ht : truthy swp <;>
      simp [ht, Marketplace.Details, runQuery_calls, countQueries, Call.isQueryB]
  · simp only [Marketplace.FinishCw20]
    rw [runExec_countQueries]
    cases ht : truthy swp <;>
      simp [ht, Marketplace.Details, runQuery_calls, countQueries, Call.isQueryB]
  · cases hc : coinE (jsString price) client.chainMinDenom with
    | error e => simp [Marketplace.CreateNative, hc, countQueries]
    | ok cost =>
      simp only [Marketplace.CreateNative, hc]
      rw [runExec_countQueries]; rfl
  · simp only [Marketplace.CreateCw20]
    rw [runExec_countQueries]; rfl
  · simp only [Marketplace.Cancel]
    rw [runExec_countQueries]; rfl
  · cases hc : coinE (jsString price) client.chainMinDenom with
    | error e => simp [Marketplace.Update, hc, countQueries]
    | ok cost =>
      simp only [Marketplace.Update, hc]
      rw [runExec_countQueries]; rfl

/-- Witness for C5 (amended), at a concrete client, valid price and swap. -/
theorem c5_witness :
    senderOk demoClient = true
  ∧ isDigits (jsString (Value.str "5")) = true
  ∧ truthy (Value.obj [("swap_type", Value.str "Sale"), ("price", Value.str "5")]) = true
  ∧ countExecs (Marketplace.CreateNative "m" (Value.str "1") (Value.str "1") (Value.str "1")
      (Value.str "5") (Value.str "1") demoClient).calls = 1
  ∧ countExecs (Marketplace.FinishNative "m" (Value.str "1")
      (Value.obj [("swap_type", Value.str "Sale"), ("price", Value.str "5")])
      demoClient).calls = 1 :=
  ⟨rfl, rfl, rfl,
   (c5_one_shot_amended "m" demoClient (Value.str "1") (Value.str "1") (Value.str "1")
      (Value.str "1") (Value.str "1") (Value.str "1") (Value.str "1") (Value.str "5")
      (Value.obj [("swap_type", Value.str "Sale"), ("price", Value.str "5")])).1 rfl rfl,
   (c5_one_shot_amended "m" demoClient (Value.str "1") (Value.str "1") (Value.str "1")
      (Value.str "1") (Value.str "1") (Value.str "1") (Value.str "1") (Value.str "5")
      (Value.obj [("swap_type", Value.str "Sale"), ("price", Value.str "5")])).2.2.2.2.2.2.1
      rfl rfl rfl⟩

/-- C3 is false as stated: `CreateCw20` called with `swap_type = "Bogus"` and
`cw20_contract = null` builds a create message whose `swap_type` is neither
`'Sale'` nor `'Offer'` and whose `payment_token` is `null` even though the
swap is not for native ARCH. -/
theorem c3_counterexample :
    execMsgs (Marketplace.CreateCw20 "m" (Value.str "s1") Value.null (Value.str "tok")
        (Value.num 5) (Value.num 7) (Value.str "") (Value.str "Bogus") demoClient).calls
      = [Value.obj [("create", Value.obj [("id", Value.str "s1"), ("payment_token", Value.null),
          ("token_id", Value.str "tok"), ("expires", Value.obj [("at_time", Value.num 5)]),
          ("price", Value.str "7"), ("swap_type", Value.str "Bogus")])]]
  ∧ getFieldOpt (getFieldD (Value.obj [("create", Value.obj [("id", Value.str "s1"),
        ("payment_token", Value.null), ("token_id", Value.str "tok"),
        ("expires", Value.obj [("at_time", Value.num 5)]), ("price", Value.str "7"),
        ("swap_type", Value.str "Bogus")])]) "create") "swap_type" = some (Value.str "Bogus")
  ∧ isSaleOrOffer (Value.str "Bogus") = false
  ∧ getFieldOpt (getFieldD (Value.obj [("create", Value.obj [("id", Value.str "s1"),
        ("payment_token", Value.null), ("token_id", Value.str "tok"),
        ("expires", Value.obj [("at_time", Value.num 5)]), ("price", Value.str "7"),
        ("swap_type", Value.str "Bogus")])]) "create") "payment_token" = some Value.null :=
  ⟨rfl, rfl, rfl, rfl⟩

/-- C3 (amended): every create message sent by `CreateNative` or `CreateCw20`
contains `id`, `token_id`, `price`, `expires.at_time` and the caller-supplied
`swap_type` (which is `'Sale'` or `'Offer'` for schema-conforming calls), and
`payment_token`, which is `null` for `CreateNative` and the caller-supplied
`cw20_contract` argument (a cw20 address for schema-conforming calls) for
`CreateCw20`. -/
theorem c3_create_message_shape_amended (mc : String) (client : Client)
    (id cw20_contract token_id expiration price denom swap_type : Value) :
    (∀ m ∈ execMsgs (Marketplace.CreateNative mc id token_id expiration price swap_type client).calls,
        m = Value.obj [("create", Value.obj [("id", id), ("payment_token", Value.null),
          ("token_id", token_id),
          ("expires", Value.obj [("at_time", Value.str (jsString expiration))]),
          ("price", Value.str (stripLeadingZeros (jsString price))), ("swap_type", swap_type)])])
  ∧ (∀ m ∈ execMsgs (Marketplace.CreateCw20 mc id cw20_contract token_id expiration price denom
        swap_type client).calls,
        m = Value.obj [("create", Value.obj [("id", id), ("payment_token", cw20_contract),
          ("token_id", token_id), ("expires", Value.obj [("at_time", expiration)]),
          ("price", Value.str (jsString price)), ("swap_type", swap_type)])]) := by
  constructor
  · intro m hm
    rcases hc : coinE (jsString price) client.chainMinDenom with e | cost
    · simp [Marketplace.CreateNative, hc, execMsgs] at hm
    · have hco := coinE_ok_inv _ _ _ hc
      subst hco
      simp only [Marketplace.CreateNative, hc] at hm
      rw [runExec_execMsgs] at hm
      rcases hse : senderE client with e | s <;> simp only [hse] at hm <;>
        simp [execMsgs, Marketplace.createNativeMsg] at hm
      exact hm
  · intro m hm
    simp only [Marketplace.CreateCw20] at hm
    rw [runExec_execMsgs] at hm
    rcases hse : senderE client with e | s <;> simp only [hse] at hm <;>
      simp [execMsgs, Marketplace.createCw20Msg] at hm
    exact hm

/-- Witness for C3 (amended), at concrete schema-conforming arguments. -/
theorem c3_witness :
    Marketplace.createCw20Msg (Value.str "s1") (Value.str "cw") (Value.str "tok") (Value.num 5)
      (Value.num 7) (Value.str "Sale")
      ∈ execMsgs (Marketplace.CreateCw20 "m" (Value.str "s1") (Value.str "cw") (Value.str "tok")
          (Value.num 5) (Value.num 7) (Value.str "") (Value.str "Sale") demoClient).calls
  ∧ Marketplace.createCw20Msg (Value.str "s1") (Value.str "cw") (Value.str "tok") (Value.num 5)
      (Value.num 7) (Value.str "Sale")
      = Value.obj [("create", Value.obj [("id", Value.str "s1"), ("payment_token", Value.str "cw"),
          ("token_id", Value.str "tok"), ("expires", Value.obj [("at_time", Value.num 5)]),
          ("price", Value.str "7"), ("swap_type", Value.str "Sale")])] :=
  ⟨List.mem_singleton.mpr rfl,
   (c3_create_message_shape_amended "m" demoClient (Value.str "s1") (Value.str "cw")
      (Value.str "tok") (Value.num 5) (Value.num 7) (Value.str "") (Value.str "Sale")).2 _
      (List.mem_singleton.mpr rfl)⟩

/-- C9: `FinishNative` attaches native funds exactly when the swap being
finished is a `Sale`: every `execute` call it issues carries the single coin
`coin(String(swap.price), minimal denom)` as funds when
`swap.swap_type == "Sale"`, and the empty funds list otherwise (e.g. for an
`Offer`). -/
theorem c9_finish_native_funds (mc : String) (client : Client) (id swap : Value)
    (hts : truthy swap = true) :
    ∀ c ∈ (Marketplace.FinishNative mc id swap client).calls,
      Call.fundsOf c =
        some (if Marketplace.eqSale (getFieldD swap "swap_type")
              then [Coin.mk (stripLeadingZeros (jsString (getFieldD swap "price")))
                      client.chainMinDenom]
              else []) := by
  intro c hc
  simp only [Marketplace.FinishNative, hts, if_true, getFieldE_truthy _ _ hts] at hc
  rcases hse : senderE client with e | s
  · rw [hse] at hc
    simp [runExec_calls_error] at hc
  · rw [hse] at hc
    cases heq : Marketplace.eqSale (getFieldD swap "swap_type")
    · simp [heq] at hc
      rw [runExec_calls_okc] at hc
      simp at hc
      subst hc
      simp [Call.fundsOf, heq]
    · rcases hcoin : coinE (jsString (getFieldD swap "price")) client.chainMinDenom with e | co
      · rw [hcoin] at hc
        simp [heq, Except.map, runExec_calls_error] at hc
      · rw [hcoin] at hc
        have hco := coinE_ok_inv _ _ _ hcoin
        subst hco
        simp [heq, Except.map] at hc
        rw [runExec_calls_okc] at hc
        simp at hc
        subst hc
        simp [Call.fundsOf, heq]

/-- Witness for C9, at a concrete `Sale` swap object. -/
theorem c9_witness :
    truthy (Value.obj [("token_id", Value.str "t"), ("expires", Value.null),
      ("price", Value.str "5"), ("swap_type", Value.str "Sale")]) = true
  ∧ Call.exec (Value.str "archway1demo") "m"
      (Marketplace.finishMsg (Value.str "s1") Value.null (Value.str "t") Value.null
        (Value.str "5") (Value.str "Sale"))
      Value.null "Swap t for 0 ARCH" (some [Coin.mk "5" "aarch"])
      ∈ (Marketplace.FinishNative "m" (Value.str "s1")
          (Value.obj [("token_id", Value.str "t"), ("expires", Value.null),
            ("price", Value.str "5"), ("swap_type", Value.str "Sale")]) demoClient).calls
  ∧ Call.fundsOf (Call.exec (Value.str "archway1demo") "m"
      (Marketplace.finishMsg (Value.str "s1") Value.null (Value.str "t") Value.null
        (Value.str "5") (Value.str "Sale"))
      Value.null "Swap t for 0 ARCH" (some [Coin.mk "5" "aarch"]))
      = some [Coin.mk "5" "aarch"] :=
  ⟨rfl, List.mem_singleton.mpr rfl,
   c9_finish_native_funds "m" demoClient (Value.str "s1")
     (Value.obj [("token_id", Value.str "t"), ("expires", Value.null),
       ("price", Value.str "5"), ("swap_type", Value.str "Sale")]) rfl _
     (List.mem_singleton.mpr rfl)⟩

/-- C7: every wrapper is stateless and deterministic: the module stores no
state between calls, so invocations of the same wrapper with the same
arguments against clients giving identical responses (identical
`queryContractSmart`/`execute` oracles, accounts, denom and fees) produce
identical contract messages, calls and results. -/
theorem c7_stateless_deterministic (mc : String) (c1 c2 : Client) (v1 v2 v3 v4 v5 v6 v7 : Value)
    (hq : ∀ a m, c1.queryContractSmart a m = c2.queryContractSmart a m)
    (hx : ∀ s a m f memo fu, c1.execute s a m f memo fu = c2.execute s a m f memo fu)
    (ha : c1.getAccounts = c2.getAccounts)
    (hd : c1.chainMinDenom = c2.chainMinDenom)
    (hf : c1.fees = c2.fees) :
    Marketplace.Config mc c1 = Marketplace.Config mc c2
  ∧ Marketplace.List mc v1 v2 c1 = Marketplace.List mc v1 v2 c2
  ∧ Marketplace.Details mc v1 c1 = Marketplace.Details mc v1 c2
  ∧ Marketplace.SwapsOf mc v1 v2 v3 v4 c1 = Marketplace.SwapsOf mc v1 v2 v3 v4 c2
  ∧ Marketplace.GetTotal mc v1 c1 = Marketplace.GetTotal mc v1 c2
  ∧ Marketplace.GetOffers mc v1 v2 c1 = Marketplace.GetOffers mc v1 v2 c2
  ∧ Marketplace.GetListings mc v1 v2 c1 = Marketplace.GetListings mc v1 v2 c2
  ∧ Marketplace.ListingsOfToken mc v1 v2 v3 v4 v5 c1 = Marketplace.ListingsOfToken mc v1 v2 v3 v4 v5 c2
  ∧ Marketplace.SwapsByPrice mc v1 v2 v3 v4 v5 c1 = Marketplace.SwapsByPrice mc v1 v2 v3 v4 v5 c2
  ∧ Marketplace.SwapsByDenom mc v1 v2 v3 v4 c1 = Marketplace.SwapsByDenom mc v1 v2 v3 v4 c2
  ∧ Marketplace.SwapsByPaymentType mc v1 v2 v3 v4 c1 = Marketplace.SwapsByPaymentType mc v1 v2 v3 v4 c2
  ∧ Marketplace.CreateNative mc v1 v2 v3 v4 v5 c1 = Marketplace.CreateNative mc v1 v2 v3 v4 v5 c2
  ∧ Marketplace.CreateCw20 mc v1 v2 v3 v4 v5 v6 v7 c1 = Marketplace.CreateCw20 mc v1 v2 v3 v4 v5 v6 v7 c2
  ∧ Marketplace.FinishNative mc v1 v2 c1 = Marketplace.FinishNative mc v1 v2 c2
  ∧ Marketplace.FinishCw20 mc v1 v2 v3 c1 = Marketplace.FinishCw20 mc v1 v2 v3 c2
  ∧ Marketplace.Cancel mc v1 c1 = Marketplace.Cancel mc v1 c2
  ∧ Marketplace.Update mc v1 v2 v3 c1 = Marketplace.Update mc v1 v2 v3 c2 := by
  have hq' : c1.queryContractSmart = c2.queryContractSmart :=
    funext fun a => funext fun m => hq a m
  have hx' : c1.execute = c2.execute :=
    funext fun s => funext fun a => funext fun m => funext fun f =>
      funext fun memo => funext fun fu => hx s a m f memo fu
  have hcc : c1 = c2 := by
    cases c1; cases c2; simp_all
  subst hcc
  simp

/-- Witness for C7, with two identical concrete clients. -/
theorem c7_witness :
    Marketplace.Config "m" demoClient = Marketplace.Config "m" demoClient :=
  (c7_stateless_deterministic "m" demoClient demoClient (Value.str "1") (Value.str "1")
    (Value.str "1") (Value.str "1") (Value.str "1") (Value.str "1") (Value.str "1")
    (fun _ _ => rfl) (fun _ _ _ _ _ _ => rfl) rfl rfl rfl).1
